import Mathlib

/-!
Verification of the local-rag backend (apps/api) against its specification.

Shallow embedding: the Python functions of the repository are translated into
executable Lean definitions (machine floats are modelled by `ℚ`, I/O oracles
become function parameters), and the specification claims are proved or
refuted about those definitions.
-/

namespace LocalRag

/-! ## Python string primitives, modelled at the character-list level -/

/-- Python `str.strip()`: drop whitespace from both ends. -/
def pyStrip (s : String) : String :=
  ⟨((s.data.dropWhile Char.isWhitespace).reverse.dropWhile
      Char.isWhitespace).reverse⟩

/-- Python `str.lower()` (ASCII case folding). -/
def pyLower (s : String) : String :=
  ⟨s.data.map Char.toLower⟩

/-- Split a character list on whitespace runs, discarding empties.  The
fuel argument (an upper bound on the recursion depth, each call strictly
shortens the list) keeps the definition structurally recursive. -/
def wsSplit : ℕ → List Char → List (List Char)
  | 0, _ => []
  | _, [] => []
  | fuel + 1, c :: rest =>
    if c.isWhitespace then wsSplit fuel rest
    else
      (c :: rest.takeWhile (fun d => ¬ d.isWhitespace)) ::
        wsSplit fuel (rest.dropWhile (fun d => ¬ d.isWhitespace))

/-- Python `str.split()` with no argument: whitespace split, no empties. -/
def pySplit (s : String) : List String :=
  (wsSplit s.data.length s.data).map (fun w => ⟨w⟩)

/-! ## Retrieval contract rows (search_service.py)

`search` projects database rows to dicts with keys
source_id / source / page / section_id / section_title / text / type /
doc_id / score.  For the score pipeline only `source_id`, `text` and
`score` matter; the other fields ride along unchanged. -/

/-- A retrieval-contract chunk as produced by `search` in search_service.py. -/
structure RChunk where
  sourceId : String
  text : String
  score : ℚ
deriving DecidableEq, Repr

/-- `SCORE_THRESHOLDS` from chat_modes.py: mode → normalised-score threshold. -/
def SCORE_THRESHOLDS : List (String × ℚ) := [("rag", 3/4), ("model", 1/2)]

/-- `SCORE_THRESHOLDS.get(mode, 0.0)`: dictionary lookup with default 0. -/
def scoreThreshold (mode : String) : ℚ :=
  ((SCORE_THRESHOLDS.lookup mode).getD 0)

/-- Maximum of the scores of `c :: cs` (Python `max` over a non-empty list). -/
def maxScoreOf (c : RChunk) (cs : List RChunk) : ℚ :=
  (cs.map (·.score)).foldl max c.score

/-- `normalize_chunk_scores` from search_service.py: empty list unchanged;
if the maximal score is `≤ 0` every chunk gets score 1.0; otherwise each
score is divided by the maximum. -/
def normalizeChunkScores : List RChunk → List RChunk
  | [] => []
  | c :: cs =>
    let maxScore := maxScoreOf c cs
    if maxScore ≤ 0 then (c :: cs).map (fun x => { x with score := 1 })
    else (c :: cs).map (fun x => { x with score := x.score / maxScore })

/-- `filter_chunks_by_threshold` from search_service.py. -/
def filterChunksByThreshold (chunks : List RChunk) (threshold : ℚ) : List RChunk :=
  chunks.filter (fun c => threshold ≤ c.score)

/-- `_retrieve_and_filter` from routers/chat.py, with the raw `search` output
passed in as a parameter (the database/HTTP side of `search` is an oracle).
Returns `(all_chunks_normalized, relevant_chunks)`. -/
def retrieveAndFilter (rawChunks : List RChunk) (mode : String) :
    List RChunk × List RChunk :=
  let normalized := normalizeChunkScores rawChunks
  let threshold := scoreThreshold mode
  (normalized, filterChunksByThreshold normalized threshold)

/-! ## Chat modes (chat_modes.py) -/

/-- The closed set of chat mode codes (`CHAT_MODE_SPECS`). -/
def chatModeCodes : List String := ["model", "agent", "rag"]

/-- `DEFAULT_CHAT_MODE`. -/
def DEFAULT_CHAT_MODE : String := "rag"

/-- `normalize_chat_mode`: strip + lowercase, fall back to the default mode. -/
def normalizeChatMode (rawMode : String) : String :=
  let mode := pyLower (pyStrip rawMode)
  if chatModeCodes.contains mode then mode else DEFAULT_CHAT_MODE

/-- `RAG_NO_SOURCES_MESSAGE` from chat_modes.py. -/
def RAG_NO_SOURCES_MESSAGE : String :=
  "В загруженной документации релевантной информации не найдено. " ++
  "Уточните запрос или загрузите нужные документы."

/-- `build_answer` from chat_modes.py (the apostrophe of the fallback branch
is built from a character literal). -/
def buildAnswer (mode message agentId agentName : String)
    (tools : List String) : String :=
  if mode = "agent" then
    let resolvedName := pyStrip agentName
    let resolvedId := pyStrip agentId
    let label :=
      if resolvedName ≠ "" ∧ resolvedId ≠ "" then
        resolvedName ++ " [" ++ resolvedId ++ "]"
      else if resolvedName ≠ "" then resolvedName
      else if resolvedId ≠ "" then resolvedId
      else "Агент"
    let toolsText := if tools.isEmpty then "не указаны"
      else String.intercalate ", " tools
    "Агент «" ++ label ++ "» активирован. Доступные тулзы: " ++ toolsText ++
      ". Запрос принят: " ++ message
  else
    let title :=
      if mode = "model" then "Модель"
      else if mode = "agent" then "Агент"
      else if mode = "rag" then "RAG"
      else mode
    let quote := String.singleton (Char.ofNat 39)
    title ++ ": ответ на запрос " ++ quote ++ message ++ quote ++ "."

/-! ## Non-streaming chat endpoint (routers/chat.py, `chat`) -/

/-- A citation as built by `_to_citation` (fields relevant to the core). -/
structure CitationR where
  sourceId : String
  snippet : String
  score : ℚ
deriving DecidableEq, Repr

/-- `_to_citation`: snippet is the first 280 characters, score clamped to
the interval from 0 to 1. -/
def toCitation (c : RChunk) : CitationR :=
  { sourceId := c.sourceId
    snippet := c.text.take 280
    score := min 1 (max 0 c.score) }

/-- Observable outcome of the `POST /chat` handler: the response text, the
citations list, whether the upstream LLM was called, and whether retrieval
was performed. -/
structure ChatOutcome where
  responseText : String
  citations : List CitationR
  llmCalled : Bool
  retrievalCalled : Bool
deriving DecidableEq, Repr

/-- The `chat` handler of routers/chat.py, with the raw retrieval rows and
the LLM answer passed as oracles.  Mirrors the branch structure: agent mode
never retrieves; rag mode with no relevant chunks answers with the fixed
no-sources message and does not call the LLM. -/
def chatHandler (mode message : String) (rawChunks : List RChunk)
    (llmAnswer : String) : ChatOutcome :=
  let m := normalizeChatMode mode
  if m = "agent" then
    { responseText := buildAnswer m message "" "" []
      citations := []
      llmCalled := false
      retrievalCalled := false }
  else
    let relevant := (retrieveAndFilter rawChunks m).2
    let sourcesFound := !relevant.isEmpty
    let citations := relevant.map toCitation
    if m = "rag" ∧ sourcesFound = false then
      { responseText := RAG_NO_SOURCES_MESSAGE
        citations := citations
        llmCalled := false
        retrievalCalled := true }
    else
      { responseText := llmAnswer
        citations := citations
        llmCalled := true
        retrievalCalled := true }

/-! ## Theorems for C2, C3, C10 -/

theorem filter_member_ge (chunks : List RChunk) (t : ℚ) (c : RChunk)
    (h : c ∈ filterChunksByThreshold chunks t) : t ≤ c.score := by
  have := List.of_mem_filter h
  simpa using of_decide_eq_true this

/-- C2: every chunk surviving `_retrieve_and_filter` in rag mode has
normalised score at least 3/4; in model mode at least 1/2; the agent branch
of the chat handler performs no retrieval and applies no threshold. -/
theorem mode_score_thresholds :
    (∀ raw : List RChunk, ∀ c ∈ (retrieveAndFilter raw "rag").2,
      (3/4 : ℚ) ≤ c.score) ∧
    (∀ raw : List RChunk, ∀ c ∈ (retrieveAndFilter raw "model").2,
      (1/2 : ℚ) ≤ c.score) ∧
    (∀ message raw llmAnswer,
      (chatHandler "agent" message raw llmAnswer).retrievalCalled = false) := by
  refine ⟨?_, ?_, ?_⟩
  · intro raw c hc
    have h := filter_member_ge (normalizeChunkScores raw)
      (scoreThreshold "rag") c hc
    simpa [scoreThreshold, SCORE_THRESHOLDS] using h
  · intro raw c hc
    have h := filter_member_ge (normalizeChunkScores raw)
      (scoreThreshold "model") c hc
    simpa [scoreThreshold, SCORE_THRESHOLDS] using h
  · intro message raw llmAnswer
    have hmode : normalizeChatMode "agent" = "agent" := by decide
    simp [chatHandler, hmode]

/-- Witness for C2 at a concrete retrieval row. -/
theorem mode_score_thresholds_witness :
    (3/4 : ℚ) ≤ (RChunk.mk "s" "t" 1).score ∧
    (1/2 : ℚ) ≤ (RChunk.mk "s" "t" 1).score ∧
    (chatHandler "agent" "hi" [] "x").retrievalCalled = false := by
  refine ⟨?_, ?_, mode_score_thresholds.2.2 "hi" [] "x"⟩
  · exact mode_score_thresholds.1 [RChunk.mk "s" "t" 2] (RChunk.mk "s" "t" 1)
      (by norm_num [retrieveAndFilter, normalizeChunkScores, maxScoreOf,
        filterChunksByThreshold, scoreThreshold, SCORE_THRESHOLDS, List.lookup])
  · exact mode_score_thresholds.2.1 [RChunk.mk "s" "t" 2] (RChunk.mk "s" "t" 1)
      (by
        have hbeq : ("model" == "rag") = false := by decide
        norm_num [retrieveAndFilter, normalizeChunkScores, maxScoreOf,
          filterChunksByThreshold, scoreThreshold, SCORE_THRESHOLDS,
          List.lookup, hbeq])

/-- C3: a rag-mode chat request for which no chunk survives the threshold
answers with exactly the fixed no-sources sentence, does not call the LLM,
and returns an empty citations list. -/
theorem rag_no_sources_short_circuit (message llmAnswer : String)
    (raw : List RChunk)
    (h : (retrieveAndFilter raw "rag").2 = []) :
    (chatHandler "rag" message raw llmAnswer).responseText =
        RAG_NO_SOURCES_MESSAGE ∧
    (chatHandler "rag" message raw llmAnswer).llmCalled = false ∧
    (chatHandler "rag" message raw llmAnswer).citations = [] := by
  have hmode : normalizeChatMode "rag" = "rag" := by decide
  simp only [chatHandler, hmode]
  simp [h]

/-- Witness for C3 on the empty retrieval result. -/
theorem rag_no_sources_short_circuit_witness :
    (chatHandler "rag" "q" [] "ans").responseText = RAG_NO_SOURCES_MESSAGE ∧
    (chatHandler "rag" "q" [] "ans").llmCalled = false ∧
    (chatHandler "rag" "q" [] "ans").citations = [] :=
  rag_no_sources_short_circuit "q" "ans" []
    (by simp [retrieveAndFilter, normalizeChunkScores, filterChunksByThreshold])

/-- C10: whenever the maximal raw score is non-positive (not only when all
scores are exactly zero), normalisation promotes every chunk to score 1.0,
which passes both the rag threshold 3/4 and the model threshold 1/2. -/
theorem normalize_promotes_nonpositive (c : RChunk) (cs : List RChunk)
    (h : maxScoreOf c cs ≤ 0) :
    (∀ x ∈ normalizeChunkScores (c :: cs), x.score = 1) ∧
    filterChunksByThreshold (normalizeChunkScores (c :: cs)) (3/4) =
      normalizeChunkScores (c :: cs) ∧
    filterChunksByThreshold (normalizeChunkScores (c :: cs)) (1/2) =
      normalizeChunkScores (c :: cs) := by
  have hnorm : normalizeChunkScores (c :: cs) =
      (c :: cs).map (fun x => { x with score := 1 }) := by
    simp [normalizeChunkScores, h]
  refine ⟨?_, ?_, ?_⟩
  · intro x hx
    rw [hnorm] at hx
    obtain ⟨y, _, rfl⟩ := List.mem_map.mp hx
    rfl
  · rw [hnorm]
    apply List.filter_eq_self.mpr
    intro x hx
    obtain ⟨y, _, rfl⟩ := List.mem_map.mp hx
    norm_num
  · rw [hnorm]
    apply List.filter_eq_self.mpr
    intro x hx
    obtain ⟨y, _, rfl⟩ := List.mem_map.mp hx
    norm_num

/-- Witness for C10: a candidate set with strictly negative cosine scores. -/
theorem normalize_promotes_nonpositive_witness :
    (∀ x ∈ normalizeChunkScores
        [RChunk.mk "a" "x" (-1/2), RChunk.mk "b" "y" (-2)], x.score = 1) ∧
    filterChunksByThreshold
        (normalizeChunkScores
          [RChunk.mk "a" "x" (-1/2), RChunk.mk "b" "y" (-2)]) (3/4) =
      normalizeChunkScores
        [RChunk.mk "a" "x" (-1/2), RChunk.mk "b" "y" (-2)] ∧
    filterChunksByThreshold
        (normalizeChunkScores
          [RChunk.mk "a" "x" (-1/2), RChunk.mk "b" "y" (-2)]) (1/2) =
      normalizeChunkScores
        [RChunk.mk "a" "x" (-1/2), RChunk.mk "b" "y" (-2)] :=
  normalize_promotes_nonpositive (RChunk.mk "a" "x" (-1/2))
    [RChunk.mk "b" "y" (-2)] (by norm_num [maxScoreOf, max_def])

/-! ## Reciprocal Rank Fusion (`_rrf_merge` in search_service.py)

Python dicts preserve insertion order and `sorted` is stable, so the merge
is modelled by an association list with append-at-end `setdefault` and a
stable insertion sort. -/

/-- Stable insert: `x` is placed before the first element `y` for which
`before x y` fails; used to model the stability of Python `sorted`. -/
def insertStable {α : Type} (before : α → α → Prop) [DecidableRel before]
    (x : α) : List α → List α
  | [] => [x]
  | y :: ys => if before x y then y :: insertStable before x ys else x :: y :: ys

/-- Stable sort built from `insertStable`; elements compare by `before`,
ties keep their original relative order (Python `sorted` semantics). -/
def sortStable {α : Type} (before : α → α → Prop) [DecidableRel before] :
    List α → List α
  | [] => []
  | a :: rest => insertStable before a (sortStable before rest)

/-- `by_id.setdefault(key, {**row, "rrf": 0.0})["rrf"] += add`: first-seen
row data is kept, the running RRF score is accumulated, new keys append. -/
def rrfBump {α : Type} (key : α → String) (row : α) (add : ℚ) :
    List (α × ℚ) → List (α × ℚ)
  | [] => [(row, add)]
  | (r, s) :: rest =>
    if key r = key row then (r, s + add) :: rest
    else (r, s) :: rrfBump key row add rest

/-- One `for rank, row in enumerate(rows, start=1)` accumulation pass with
increment `1.0 / (k + rank)` and `k = 60`. -/
def rrfAccum {α : Type} (key : α → String) (acc : List (α × ℚ))
    (rows : List α) : List (α × ℚ) :=
  rows.enum.foldl (fun a p => rrfBump key p.2 (1 / (60 + (p.1 : ℚ) + 1)) a) acc

/-- `_rrf_merge` from search_service.py: accumulate both lists, sort by RRF
score descending (stable), keep the first `top_n`. -/
def rrfMerge {α : Type} (key : α → String) (vectorRows ftsRows : List α)
    (topN : ℕ) : List (α × ℚ) :=
  let acc := rrfAccum key (rrfAccum key [] vectorRows) ftsRows
  (sortStable (fun x y => x.2 < y.2) acc).take topN

/-- C5 counterexample: on vector list `[A,B,C]` and FTS list `[C,A,D]` with
`top_n = 3` the merge does not return the order C, A, B claimed by the
specification scenario. -/
theorem rrf_concrete_order_counterexample :
    (rrfMerge id ["A", "B", "C"] ["C", "A", "D"] 3).map Prod.fst ≠
      ["C", "A", "B"] := by
  simp [rrfMerge, rrfAccum, rrfBump, sortStable, insertStable, List.enum,
    List.enumFrom]
  norm_num [insertStable]
  decide

/-- C5 amended: the merge returns A, C, B — the scores are
A = 1/61 + 1/62, C = 1/63 + 1/61, B = 1/62, and D = 1/63 is strictly below
B rather than tied with it. -/
theorem rrf_concrete_order_amended :
    rrfMerge id ["A", "B", "C"] ["C", "A", "D"] 3 =
      [("A", 1/61 + 1/62), ("C", 1/63 + 1/61), ("B", 1/62)] ∧
    rrfAccum id (rrfAccum id [] ["A", "B", "C"]) ["C", "A", "D"] =
      [("A", 1/61 + 1/62), ("B", 1/62), ("C", 1/63 + 1/61), ("D", 1/63)] ∧
    ((1 : ℚ)/63 < 1/62) := by
  refine ⟨?_, ?_, by norm_num⟩
  · simp [rrfMerge, rrfAccum, rrfBump, sortStable, insertStable,
      List.enum, List.enumFrom]
    norm_num [insertStable]
  · simp [rrfAccum, rrfBump, List.enum, List.enumFrom]
    norm_num

/-! ## Notebook database search (notebook_db/search.py) -/

/-- A row of the `documents` table (fields used by search). -/
structure DbDoc where
  docId : String
  isEnabled : Bool
  tags : List String
deriving DecidableEq, Repr

/-- A row of the `chunks` table joined with its document (fields used by
search); list position models insertion order, `rowid` the SQLite rowid. -/
structure DbChunk where
  rowid : ℕ
  chunkId : String
  docId : String
  chunkText : String
  isEnabled : Bool
deriving DecidableEq, Repr

/-- The per-notebook store: `documents`, `chunks` (in rowid order) and the
`tags` table (tag name, is_enabled). -/
structure NotebookDb where
  docs : List DbDoc
  chunks : List DbChunk
  tagFlags : List (String × Bool)
deriving Repr

/-- `_enabled_filter_clause` applied to one chunk row: the document exists
and is enabled, the chunk is enabled, the optional source filter matches,
and (when requested) no attached tag is disabled. -/
def chunkVisible (db : NotebookDb) (sel : Option (List String))
    (onlyTags : Bool) (c : DbChunk) : Bool :=
  match db.docs.find? (fun d => d.docId == c.docId) with
  | none => false
  | some d =>
    d.isEnabled && c.isEnabled &&
    (match sel with
     | none => true
     | some ids => ids.contains c.docId) &&
    (!onlyTags ||
      !(d.tags.any (fun t => db.tagFlags.any (fun p => p.1 == t && p.2 == false))))

/-- All chunk rows visible under the filter clause, in rowid order. -/
def visibleChunks (db : NotebookDb) (sel : Option (List String))
    (onlyTags : Bool) : List DbChunk :=
  db.chunks.filter (chunkVisible db sel onlyTags)

/-- Character-list version of `startsWith` for the LIKE model. -/
def startsWithChars : List Char → List Char → Bool
  | [], _ => true
  | _ :: _, [] => false
  | a :: an, b :: bn => a == b && startsWithChars an bn

/-- Substring containment on character lists. -/
def containsChars (needle : List Char) : List Char → Bool
  | [] => needle.isEmpty
  | c :: rest => startsWithChars needle (c :: rest) || containsChars needle rest

/-- SQL `chunk_text LIKE %term%` (SQLite LIKE folds ASCII case). -/
def likeContains (term text : String) : Bool :=
  containsChars (pyLower term).data (pyLower text).data

/-- `search_fts` from notebook_db/search.py.  The BM25 `MATCH` stage runs
inside SQLite and is passed as an oracle: `none` models the query raising
(as FTS5 does on an empty or malformed match expression), `some rows` its
result rows.  The LIKE and newest-rows fallbacks are modelled directly. -/
def searchFts (db : NotebookDb) (bm25 : Option (List DbChunk))
    (query : String) (topK : ℕ) (sel : Option (List String))
    (onlyTags : Bool) : Option (List DbChunk) :=
  match bm25 with
  | none => none
  | some rows =>
    if rows ≠ [] then some rows
    else
      let terms := pySplit (pyStrip query)
      if terms = [] then some []
      else
        let likeRows :=
          ((visibleChunks db sel onlyTags).filter
            (fun c => terms.any (fun t => likeContains t c.chunkText))).take topK
        if likeRows ≠ [] then some likeRows
        else
          some ((sortStable (fun x y => x.rowid < y.rowid)
            (visibleChunks db sel onlyTags)).take topK)

/-- The `search` function of search_service.py on its FTS side: the vector
rows (empty when no embedding engine is available) and the BM25 oracle are
parameters; a raised `search_fts` is caught and treated as no FTS rows. -/
def searchService (db : NotebookDb) (bm25 : Option (List DbChunk))
    (query : String) (sel : List String) (topN : ℕ)
    (vectorRows : List DbChunk) : List RChunk :=
  let topK := max (topN * 3) 10
  let selOpt := if sel = [] then none else some sel
  let ftsRows := (searchFts db bm25 query topK selOpt true).getD []
  let merged : List (DbChunk × ℚ) :=
    if vectorRows = [] then (ftsRows.take topN).map (fun c => (c, 0))
    else rrfMerge (fun c => c.chunkId) vectorRows ftsRows topN
  merged.map (fun p =>
    { sourceId := p.1.docId, text := p.1.chunkText, score := p.2 })

/-- The concrete store used to refute C7: one enabled source `d1` with one
enabled stored chunk and no disabled tags. -/
def dbOneChunk : NotebookDb :=
  { docs := [⟨"d1", true, []⟩]
    chunks := [⟨1, "c1", "d1", "hello world", true⟩]
    tagFlags := [] }

/-- C7 counterexample: with an enabled selected source that has a stored
chunk, an empty query still yields an empty hybrid-search result (whether
the BM25 MATCH raises, as FTS5 does on an empty expression, or returns no
rows), because the term-based fallbacks require at least one query term. -/
theorem empty_query_search_counterexample :
    visibleChunks dbOneChunk (some ["d1"]) true ≠ [] ∧
    searchService dbOneChunk none "" ["d1"] 5 [] = [] ∧
    searchService dbOneChunk (some []) "" ["d1"] 5 [] = [] := by
  refine ⟨by decide, by rfl, ?_⟩
  have hterms : pySplit (pyStrip "") = [] := by decide
  simp [searchService, searchFts, hterms]

theorem sortStable_length {α : Type} (before : α → α → Prop)
    [DecidableRel before] (l : List α) :
    (sortStable before l).length = l.length := by
  induction l with
  | nil => rfl
  | cons a rest ih =>
    have hins : ∀ (x : α) (m : List α),
        (insertStable before x m).length = m.length + 1 := by
      intro x m
      induction m with
      | nil => rfl
      | cons y ys ihm =>
        by_cases h : before x y
        · simp [insertStable, h, ihm]
        · simp [insertStable, h]
    simp [sortStable, hins, ih]

theorem take_ne_nil_of_pos {α : Type} {l : List α} {k : ℕ}
    (hl : l ≠ []) (hk : 0 < k) : l.take k ≠ [] := by
  cases l with
  | nil => exact absurd rfl hl
  | cons a rest =>
    cases k with
    | zero => exact absurd hk (by simp)
    | succ n => simp

/-- C7 amended: the FTS engine returns the empty list for a query with no
terms, and for a query with at least one term it never returns empty when a
visible chunk exists — falling back from BM25 to LIKE to a newest-rows
listing. -/
theorem fts_fallback_amended (db : NotebookDb) (rows : List DbChunk)
    (query : String) (topK : ℕ) (sel : Option (List String)) (onlyTags : Bool)
    (hterms : pySplit (pyStrip query) ≠ [])
    (hvis : visibleChunks db sel onlyTags ≠ [])
    (htop : 0 < topK) :
    searchFts db (some []) "" topK sel onlyTags = some [] ∧
    (∃ out, searchFts db (some rows) query topK sel onlyTags = some out ∧
      out ≠ []) := by
  constructor
  · have h0 : pySplit (pyStrip "") = [] := by decide
    simp [searchFts, h0]
  · by_cases hrows : rows = []
    · subst hrows
      simp only [searchFts, hterms]
      by_cases hlike : ((visibleChunks db sel onlyTags).filter
          (fun c => (pySplit (pyStrip query)).any
            (fun t => likeContains t c.chunkText))).take topK = []
      · refine ⟨(sortStable (fun x y => x.rowid < y.rowid)
          (visibleChunks db sel onlyTags)).take topK, ?_, ?_⟩
        · simp [hterms, hlike]
        · apply take_ne_nil_of_pos ?_ htop
          intro hsort
          apply hvis
          have := sortStable_length (fun x y : DbChunk => x.rowid < y.rowid)
            (visibleChunks db sel onlyTags)
          rw [hsort] at this
          exact List.length_eq_zero.mp this.symm
      · exact ⟨_, by simp [hterms, hlike], hlike⟩
    · exact ⟨rows, by simp [searchFts, hrows], hrows⟩

/-- Witness for the amended C7 theorem on the one-chunk store. -/
theorem fts_fallback_amended_witness :
    searchFts dbOneChunk (some []) "" 10 none true = some [] ∧
    (∃ out, searchFts dbOneChunk (some []) "zzz" 10 none true = some out ∧
      out ≠ []) :=
  fts_fallback_amended dbOneChunk [] "zzz" 10 none true
    (by decide) (by decide) (by decide)

/-! ## General chunker (parse/chunkers/general.py) -/

/-- `_token_count` in the fallback mode without the optional BPE tokeniser:
`max(1, int(len(tokens) * 1.3))` for non-empty text, `0` for empty; the
float truncation `int(n * 1.3)` equals `⌊13·n/10⌋` at these magnitudes. -/
def tokenCountApprox (tokens : List String) : ℕ :=
  if tokens = [] then 0 else max 1 (13 * tokens.length / 10)

/-- The window taken at `offset` by `GeneralChunker._chunk_text_block`:
`tokens[offset : offset+step]`, widened to `tokens[offset : offset+2*step]`
when its token count is below `min_chunk_size` and more tokens remain after
the window. -/
def windowAt (tokens : List String) (step minChunk offset : ℕ) : List String :=
  let part := (tokens.drop offset).take step
  if tokenCountApprox part < minChunk ∧ offset + step < tokens.length then
    (tokens.drop offset).take (2 * step)
  else part

/-- `GeneralChunker._chunk_text_block`: iterate
`for offset in range(0, len(tokens), step)` with `step = max(1, chunk_size)`
and emit the window at each offset. -/
def chunkTextBlock (tokens : List String) (chunkSize minChunk : ℕ) :
    List (List String) :=
  if tokens = [] then []
  else
    let step := max 1 chunkSize
    ((List.range ((tokens.length + step - 1) / step)).map (· * step)).map
      (windowAt tokens step minChunk)

/-- C8 (code bug): with six tokens, `chunk_size = 5`, `min_chunk_size = 3`,
the one-token tail is emitted as its own chunk instead of being merged into
its predecessor (the widening condition `offset + step < len(tokens)` can
never hold at the final offset); and when the widening branch does fire
(five tokens, `chunk_size = 2`, `min_chunk_size = 10`) the produced chunks
physically overlap. -/
theorem chunk_tail_not_merged :
    chunkTextBlock ["t1", "t2", "t3", "t4", "t5", "t6"] 5 3 =
      [["t1", "t2", "t3", "t4", "t5"], ["t6"]] ∧
    tokenCountApprox ["t6"] < 3 ∧
    chunkTextBlock ["a", "b", "c", "d", "e"] 2 10 =
      [["a", "b", "c", "d"], ["c", "d", "e"], ["e"]] := by
  decide

/-! ## Embedding of parsed chunks (`EmbeddingEngine.embed_chunks`) -/

/-- A parsed-chunk dict as read from the parsing JSON (fields used by
`embed_chunks`): the display `text` and the optional `embedding_text`. -/
structure PChunk where
  chunkId : String
  text : String
  embeddingText : Option String
deriving DecidableEq, Repr

/-- Split a list into consecutive batches of `n` (the `range(0, total,
batch_size)` loop); fuel keeps the recursion structural. -/
def batchesF {α : Type} : ℕ → ℕ → List α → List (List α)
  | 0, _, _ => []
  | _, _, [] => []
  | fuel + 1, n, l => l.take (max 1 n) :: batchesF fuel n (l.drop (max 1 n))

/-- The batches of `l` of size `n`. -/
def batches {α : Type} (n : ℕ) (l : List α) : List (List α) :=
  batchesF l.length n l

theorem batchesF_flatten {α : Type} :
    ∀ (fuel n : ℕ) (l : List α), l.length ≤ fuel →
      (batchesF fuel n l).flatten = l := by
  intro fuel
  induction fuel with
  | zero =>
    intro n l hl
    have : l = [] := List.length_eq_zero.mp (Nat.le_zero.mp hl)
    subst this
    rfl
  | succ fuel ih =>
    intro n l hl
    cases l with
    | nil => rfl
    | cons a rest =>
      have hdrop : ((a :: rest).drop (max 1 n)).length ≤ fuel := by
        have h1 : 1 ≤ max 1 n := Nat.le_max_left 1 n
        simp only [List.length_drop]
        simp only [List.length_cons] at hl ⊢
        omega
      simp only [batchesF, List.flatten_cons]
      rw [ih n _ hdrop]
      exact List.take_append_drop _ _

theorem batches_flatten {α : Type} (n : ℕ) (l : List α) :
    (batches n l).flatten = l :=
  batchesF_flatten l.length n l (Nat.le_refl _)

/-- `EmbeddingEngine.embed_chunks` with the network call abstracted into a
deterministic per-text `embed` oracle: per batch the texts sent to the
server are `[item.get("text", "") for item in batch]`, and each chunk is
paired with the vector returned for that text. -/
def embedChunks (embed : String → List ℚ) (batchSize : ℕ)
    (chunks : List PChunk) : List (PChunk × List ℚ) :=
  ((batches batchSize chunks).map
    (fun batch => batch.map (fun c => (c, embed c.text)))).flatten

/-- A concrete injective embedding oracle for the divergence instance. -/
def demoEmbed (s : String) : List ℚ := [(s.data.length : ℚ)]

/-- A PCR-produced chunk: display text is the parent window, embedding_text
the child window. -/
def pcrDemoChunk : PChunk :=
  { chunkId := "d:0", text := "parent one two three", embeddingText := some "child" }

/-- C1 (code bug): `embed_chunks` always computes the dense vector from the
display `text` field — for every oracle, batch size and chunk list the
embedded texts are exactly `chunks.map text` — so a PCR chunk whose
`embedding_text` is the child window is embedded from its parent text, not
from `embedding_text`. -/
theorem embed_chunks_uses_display_text :
    (∀ (embed : String → List ℚ) (batchSize : ℕ) (chunks : List PChunk),
      (embedChunks embed batchSize chunks).map Prod.snd =
        chunks.map (fun c => embed c.text)) ∧
    (embedChunks demoEmbed 16 [pcrDemoChunk]).map Prod.snd =
      [demoEmbed "parent one two three"] ∧
    pcrDemoChunk.embeddingText = some "child" ∧
    demoEmbed "parent one two three" ≠ demoEmbed "child" := by
  have hmain : ∀ (embed : String → List ℚ) (batchSize : ℕ)
      (chunks : List PChunk),
      (embedChunks embed batchSize chunks).map Prod.snd =
        chunks.map (fun c => embed c.text) := by
    intro embed batchSize chunks
    unfold embedChunks
    rw [← List.map_flatten, List.map_map]
    simp only [Function.comp_def, List.map_map]
    rw [batches_flatten]
  refine ⟨hmain, ?_, rfl, ?_⟩
  · rw [hmain]
    rfl
  · simp only [demoEmbed]
    intro h
    have := List.head_eq_of_cons_eq h
    norm_num at this

/-! ## Embedding HTTP client (`EmbeddingClient.get_embeddings`) -/

/-- Outcome of one POST to the embedding server: a parsed `embeddings`
payload, a 404, or any other failure (`raise_for_status` raises on both of
the latter). -/
inductive ServerResp where
  | ok (embeddings : List (List ℚ))
  | notFound
  | fail
deriving DecidableEq, Repr

/-- Character-level `startsWith` for strings. -/
def strStartsWith (s pre : String) : Bool :=
  startsWithChars pre.data s.data

/-- Character-level `endsWith` for strings. -/
def strEndsWith (s suf : String) : Bool :=
  startsWithChars suf.data.reverse s.data.reverse

/-- `EmbeddingClient._embedding_paths`: explicit endpoint wins; otherwise
native batch first and legacy second for ollama, the OpenAI path for
openai, native only for anything else. -/
def embeddingPaths (baseUrl provider : String) (endpoint : Option String) :
    List String :=
  match endpoint with
  | some e => [if strStartsWith e "/" then e else "/" ++ e]
  | none =>
    let primary := if strEndsWith baseUrl "/api" then "/embed" else "/api/embed"
    let fallback :=
      if strEndsWith baseUrl "/api" then "/embeddings" else "/api/embeddings"
    let p := if provider = "" then "ollama" else pyLower provider
    if p = "ollama" then [primary, fallback]
    else if p = "openai" then ["/v1/embeddings"]
    else [primary]

/-- Response post-processing of `get_embeddings`: pad or truncate the
`embeddings` list to one vector per text with zero vectors, and replace
empty items by the zero vector. -/
def padEmbeddings (dim nTexts : ℕ) (embs : List (List ℚ)) : List (List ℚ) :=
  let zero := List.replicate dim (0 : ℚ)
  let adjusted :=
    if embs.length ≠ nTexts then (embs ++ List.replicate nTexts zero).take nTexts
    else embs
  adjusted.map (fun item => if item = [] then zero else item)

/-- One attempt of the `get_embeddings` retry loop: POST to the active
path; on a 404 with retries enabled, switch once to the second endpoint
candidate (only when the active path is still the first) and re-POST.
Returns the effective response, the new active path, and the POSTs made as
(path, model) pairs. -/
def attemptPost (server : String → String → ServerResp) (paths : List String)
    (model active : String) (useRetry : Bool) :
    ServerResp × String × List (String × String) :=
  let r := server active model
  if r = ServerResp.notFound ∧ useRetry ∧ 1 < paths.length ∧
      paths.headD "" = active then
    let second := paths.getD 1 active
    (server second model, second, [(active, model), (second, model)])
  else (r, active, [(active, model)])

/-- The `for attempt in range(3)` loop of `get_embeddings`, with the number
of remaining attempts as fuel: a successful response returns the padded
embeddings; on failure the last attempt (or `use_retry=False`) returns zero
vectors, otherwise the loop retries with the (possibly switched) active
path.  The trace accumulates every POST with the model name it carried. -/
def getEmbeddingsLoop (server : String → String → ServerResp)
    (paths : List String) (model : String) (dim nTexts : ℕ)
    (useRetry : Bool) :
    ℕ → String → List (String × String) →
      List (List ℚ) × List (String × String)
  | 0, _, trace => (List.replicate nTexts (List.replicate dim 0), trace)
  | fuel + 1, active, trace =>
    match attemptPost server paths model active useRetry with
    | (ServerResp.ok embs, _, posts) =>
      (padEmbeddings dim nTexts embs, trace ++ posts)
    | (_, active2, posts) =>
      if fuel = 0 then
        (List.replicate nTexts (List.replicate dim 0), trace ++ posts)
      else if useRetry = false then
        (List.replicate nTexts (List.replicate dim 0), trace ++ posts)
      else getEmbeddingsLoop server paths model dim nTexts useRetry
        fuel active2 (trace ++ posts)

/-- `EmbeddingClient.get_embeddings`: disabled clients return zero vectors
without posting; otherwise run up to three attempts starting from the first
endpoint candidate.  The model name sent in every payload is the configured
`model_name` — the function derives no candidate models from it. -/
def getEmbeddings (enabled : Bool) (server : String → String → ServerResp)
    (paths : List String) (model : String) (dim : ℕ) (texts : List String)
    (useRetry : Bool) : List (List ℚ) × List (String × String) :=
  if enabled = false then
    (texts.map (fun _ => List.replicate dim 0), [])
  else
    getEmbeddingsLoop server paths model dim texts.length useRetry
      3 (paths.headD "") []

/-- The upstream of test_embedding_service.py's model-alias scenario: the
server lists only the untagged base model and accepts embedding POSTs only
for `model = "qwen3-embedding"` on `/api/embed`; every other POST is 404. -/
def aliasServer : String → String → ServerResp := fun path model =>
  if path = "/api/embed" ∧ model = "qwen3-embedding" then
    ServerResp.ok [[1, 2, 3, 4]]
  else ServerResp.notFound

/-- C6 (code bug): with configured model `qwen3-embedding:0.6b` against a
server that only accepts the untagged base name, `get_embeddings` posts the
tagged name on every attempt — it never strips the `:0.6b` tag, never
succeeds, and returns zero vectors — contradicting the claimed base-name
fallback (which the repository's own test
`test_embedding_model_alias_fallback_from_tagged_name` asserts). -/
theorem get_embeddings_no_tag_fallback :
    embeddingPaths "http://localhost:11434" "ollama" none =
      ["/api/embed", "/api/embeddings"] ∧
    (getEmbeddings true aliasServer ["/api/embed", "/api/embeddings"]
        "qwen3-embedding:0.6b" 4 ["hello"] true).1 =
      [[0, 0, 0, 0]] ∧
    ((getEmbeddings true aliasServer ["/api/embed", "/api/embeddings"]
        "qwen3-embedding:0.6b" 4 ["hello"] true).2.map Prod.snd).all
      (· = "qwen3-embedding:0.6b") = true ∧
    "qwen3-embedding" ∉
      (getEmbeddings true aliasServer ["/api/embed", "/api/embeddings"]
        "qwen3-embedding:0.6b" 4 ["hello"] true).2.map Prod.snd ∧
    (getEmbeddings true aliasServer ["/api/embed", "/api/embeddings"]
        "qwen3-embedding:0.6b" 4 ["hello"] true).2 ≠ [] := by
  refine ⟨by decide, ?_, by decide, by decide, by decide⟩
  rfl

/-! ## Parsing result serializer (parse/serializer.py, parse/models.py) -/

/-- `ChunkType` from parse/models.py. -/
inductive ChunkType where
  | text
  | table
  | formula
  | header
  | caption
deriving DecidableEq, Repr

/-- `ChunkType.value`: the lowercase string serialisation. -/
def ChunkType.value : ChunkType → String
  | .text => "text"
  | .table => "table"
  | .formula => "formula"
  | .header => "header"
  | .caption => "caption"

/-- `ChunkType(value)`: parse the string back, `none` on an unknown value
(Python raises `ValueError`). -/
def chunkTypeFromValue (s : String) : Option ChunkType :=
  if s = "text" then some .text
  else if s = "table" then some .table
  else if s = "formula" then some .formula
  else if s = "header" then some .header
  else if s = "caption" then some .caption
  else none

/-- `ParsedChunk` from parse/models.py, all fields. -/
structure ParsedChunk where
  text : String
  chunkType : ChunkType
  chunkIndex : ℤ
  pageNumber : Option ℤ
  sectionHeader : Option String
  parentHeader : Option String
  prevChunkTail : Option String
  nextChunkHead : Option String
  docId : String
  sourceFilename : String
  embeddingText : Option String
  parentChunkId : Option String
deriving DecidableEq, Repr

/-- A JSON value of an `individual_config` entry (`int | bool | str`). -/
inductive ConfigVal where
  | intVal (i : ℤ)
  | boolVal (b : Bool)
  | strVal (s : String)
deriving DecidableEq, Repr

/-- `DocumentMetadata` from parse/models.py, all fields; the
`individual_config` dict is an ordered key/value list. -/
structure DocumentMetadata where
  docId : String
  notebookId : String
  filename : String
  filepath : String
  fileHash : String
  fileSizeBytes : ℤ
  title : Option String
  authors : Option (List String)
  year : Option ℤ
  source : Option String
  totalPages : Option ℤ
  totalChunks : ℤ
  language : String
  parserVersion : String
  parsedAt : String
  tags : List String
  userNotes : Option String
  isEnabled : Bool
  individualConfig : List (String × Option ConfigVal)
  chunkingMethod : String
deriving DecidableEq, Repr

/-- A chunk as it appears in the parsing JSON: every `ParsedChunk` field
survives the `asdict` plus JSON round trip unchanged except `chunk_type`,
which is written as its string value. -/
structure SerializedChunk where
  text : String
  chunkType : String
  chunkIndex : ℤ
  pageNumber : Option ℤ
  sectionHeader : Option String
  parentHeader : Option String
  prevChunkTail : Option String
  nextChunkHead : Option String
  docId : String
  sourceFilename : String
  embeddingText : Option String
  parentChunkId : Option String
deriving DecidableEq, Repr

/-- One chunk entry of `save_parsing_result`:
`{**asdict(chunk), "chunk_type": chunk.chunk_type.value}`. -/
def serializeChunk (c : ParsedChunk) : SerializedChunk :=
  { text := c.text
    chunkType := c.chunkType.value
    chunkIndex := c.chunkIndex
    pageNumber := c.pageNumber
    sectionHeader := c.sectionHeader
    parentHeader := c.parentHeader
    prevChunkTail := c.prevChunkTail
    nextChunkHead := c.nextChunkHead
    docId := c.docId
    sourceFilename := c.sourceFilename
    embeddingText := c.embeddingText
    parentChunkId := c.parentChunkId }

/-- One chunk entry of `load_parsing_result`:
`ParsedChunk(**{**item, "chunk_type": ChunkType(item["chunk_type"])})`. -/
def deserializeChunk (s : SerializedChunk) : Option ParsedChunk :=
  (chunkTypeFromValue s.chunkType).map fun t =>
    { text := s.text
      chunkType := t
      chunkIndex := s.chunkIndex
      pageNumber := s.pageNumber
      sectionHeader := s.sectionHeader
      parentHeader := s.parentHeader
      prevChunkTail := s.prevChunkTail
      nextChunkHead := s.nextChunkHead
      docId := s.docId
      sourceFilename := s.sourceFilename
      embeddingText := s.embeddingText
      parentChunkId := s.parentChunkId }

/-- The parsing JSON payload `{"metadata": …, "chunks": […]}`; metadata is
plain strings/ints/bools/lists/nulls, which the JSON layer round-trips
unchanged. -/
structure ParsingPayload where
  metadata : DocumentMetadata
  chunks : List SerializedChunk
deriving DecidableEq, Repr

/-- `save_parsing_result` (the written JSON payload). -/
def saveParsingResult (metadata : DocumentMetadata)
    (chunks : List ParsedChunk) : ParsingPayload :=
  { metadata := metadata, chunks := chunks.map serializeChunk }

/-- Deserialize the chunk list; the first failing entry aborts the load
(Python raises on the first bad `chunk_type`). -/
def deserializeChunks : List SerializedChunk → Option (List ParsedChunk)
  | [] => some []
  | s :: rest =>
    match deserializeChunk s, deserializeChunks rest with
    | some c, some cs => some (c :: cs)
    | _, _ => none

/-- `load_parsing_result` (reading the payload back; an unknown chunk_type
value raises, modelled by `none`). -/
def loadParsingResult (p : ParsingPayload) :
    Option (DocumentMetadata × List ParsedChunk) :=
  (deserializeChunks p.chunks).map (fun cs => (p.metadata, cs))

theorem chunkType_value_roundtrip (t : ChunkType) :
    chunkTypeFromValue t.value = some t := by
  cases t <;> rfl

theorem chunk_serialize_roundtrip (c : ParsedChunk) :
    deserializeChunk (serializeChunk c) = some c := by
  simp [serializeChunk, deserializeChunk, chunkType_value_roundtrip]

/-- C9: `save_parsing_result` followed by `load_parsing_result` returns
metadata and chunks equal to the inputs; `chunk_type` goes through its
lowercase string value and is re-parsed to the enum. -/
theorem parsing_roundtrip (metadata : DocumentMetadata)
    (chunks : List ParsedChunk) :
    loadParsingResult (saveParsingResult metadata chunks) =
      some (metadata, chunks) := by
  have hchunks : deserializeChunks (chunks.map serializeChunk) =
      some chunks := by
    induction chunks with
    | nil => rfl
    | cons c rest ih =>
      simp [deserializeChunks, chunk_serialize_roundtrip, ih]
  simp [loadParsingResult, saveParsingResult, hchunks]

/-! ## Streaming chat endpoint and history versioning
(routers/chat.py `chat_stream`, services/state.py) -/

/-- A `ChatMessage` (fields used by the stream logic). -/
structure ChatMsg where
  id : String
  role : String
  content : String
deriving DecidableEq, Repr

/-- The per-notebook slice of `InMemoryState`: the message history and the
`chat_version` counter. -/
structure ChatState where
  messages : List ChatMsg
  chatVersion : ℕ
deriving DecidableEq, Repr

/-- `InMemoryState.add_message` (the uuid comes in as a parameter). -/
def addMessage (s : ChatState) (msgId role content : String) :
    ChatState × ChatMsg :=
  let m : ChatMsg := ⟨msgId, role, content⟩
  ({ s with messages := s.messages ++ [m] }, m)

/-- `InMemoryState.clear_messages`: empty the history and increment the
version counter. -/
def clearMessages (s : ChatState) : ChatState :=
  { messages := [], chatVersion := s.chatVersion + 1 }

/-- `InMemoryState.get_chat_version`. -/
def getChatVersion (s : ChatState) : ℕ := s.chatVersion

/-- A state mutation that another request may perform while the stream is
yielding tokens: clearing the history or appending a message. -/
inductive MidOp where
  | clear
  | addMsg (msgId role content : String)
deriving DecidableEq, Repr

/-- Apply one concurrent operation. -/
def applyOp (s : ChatState) : MidOp → ChatState
  | .clear => clearMessages s
  | .addMsg i r c => (addMessage s i r c).1

/-- Apply a sequence of concurrent operations. -/
def applyOps (s : ChatState) (ops : List MidOp) : ChatState :=
  ops.foldl applyOp s

/-- The state right after the stream generator starts: the user message is
appended before the version snapshot is taken. -/
def openState (s0 : ChatState) (userMsgId message : String) : ChatState :=
  (addMessage s0 userMsgId "user" message).1

/-- The persistence tail shared by every branch of `chat_stream`: if the
current `chat_version` differs from the snapshot, drop the answer and emit
`done` with an empty message id; otherwise persist the assistant message
and emit its id. -/
def finishStream (s : ChatState) (streamVersion : ℕ)
    (answer msgId : String) : ChatState × String :=
  if getChatVersion s ≠ streamVersion then (s, "")
  else
    let sm := addMessage s msgId "assistant" answer
    (sm.1, sm.2.id)

/-- The `chat_stream` generator of routers/chat.py: append the user
message, snapshot `chat_version`, pick the branch (agent stub, rag without
sources, or LLM streaming with the accumulated tokens joined and stripped),
let concurrent operations interleave while tokens stream, then run the
shared persistence tail.  Returns the final state and the `done` frame's
message id. -/
def chatStreamRun (s0 : ChatState) (mode message : String)
    (raw : List RChunk) (llmTokens : List String) (midOps : List MidOp)
    (userMsgId asstMsgId : String) : ChatState × String :=
  let s1 := openState s0 userMsgId message
  let streamVersion := getChatVersion s1
  let m := normalizeChatMode mode
  let relevant := (retrieveAndFilter raw m).2
  let answer :=
    if m = "agent" then buildAnswer m message "" "" []
    else if m = "rag" ∧ relevant = [] then RAG_NO_SOURCES_MESSAGE
    else pyStrip (String.join llmTokens)
  let s2 := applyOps s1 midOps
  finishStream s2 streamVersion answer asstMsgId

theorem applyOps_version (s : ChatState) (ops : List MidOp) :
    (applyOps s ops).chatVersion = s.chatVersion + ops.count MidOp.clear := by
  induction ops generalizing s with
  | nil => simp [applyOps]
  | cons op rest ih =>
    cases op with
    | clear =>
      have := ih (clearMessages s)
      simp only [applyOps, List.foldl_cons] at this ⊢
      simp only [applyOp] at this ⊢
      rw [this]
      simp [clearMessages, List.count_cons]
      omega
    | addMsg i r c =>
      have := ih (addMessage s i r c).1
      simp only [applyOps, List.foldl_cons] at this ⊢
      simp only [applyOp] at this ⊢
      rw [this]
      simp [addMessage, List.count_cons]

/-- C4: a streaming request persists an assistant turn only when the
notebook's `chat_version` at persist time equals the snapshot taken at
stream open; if the version moved (in particular whenever a clear happened
mid-stream) the accumulated answer is dropped, the state is left untouched
by the tail, and the `done` frame carries an empty message id; when the
version is unchanged the assistant message is appended and its id
emitted. -/
theorem stream_stale_turn_guard (s0 : ChatState) (mode message : String)
    (raw : List RChunk) (llmTokens : List String) (midOps : List MidOp)
    (userMsgId asstMsgId : String) :
    ((chatStreamRun s0 mode message raw llmTokens midOps userMsgId
        asstMsgId).1.messages ≠
      (applyOps (openState s0 userMsgId message) midOps).messages →
      (applyOps (openState s0 userMsgId message) midOps).chatVersion =
        (openState s0 userMsgId message).chatVersion) ∧
    ((applyOps (openState s0 userMsgId message) midOps).chatVersion ≠
        (openState s0 userMsgId message).chatVersion →
      (chatStreamRun s0 mode message raw llmTokens midOps userMsgId
          asstMsgId).1 =
        applyOps (openState s0 userMsgId message) midOps ∧
      (chatStreamRun s0 mode message raw llmTokens midOps userMsgId
          asstMsgId).2 = "") ∧
    (MidOp.clear ∈ midOps →
      (chatStreamRun s0 mode message raw llmTokens midOps userMsgId
          asstMsgId).1 =
        applyOps (openState s0 userMsgId message) midOps ∧
      (chatStreamRun s0 mode message raw llmTokens midOps userMsgId
          asstMsgId).2 = "") ∧
    ((applyOps (openState s0 userMsgId message) midOps).chatVersion =
        (openState s0 userMsgId message).chatVersion →
      (chatStreamRun s0 mode message raw llmTokens midOps userMsgId
          asstMsgId).2 = asstMsgId ∧
      ∃ answer,
        (chatStreamRun s0 mode message raw llmTokens midOps userMsgId
            asstMsgId).1.messages =
          (applyOps (openState s0 userMsgId message) midOps).messages ++
            [⟨asstMsgId, "assistant", answer⟩]) := by
  have hver : ∀ h : (applyOps (openState s0 userMsgId message)
      midOps).chatVersion ≠ (openState s0 userMsgId message).chatVersion,
      (chatStreamRun s0 mode message raw llmTokens midOps userMsgId
          asstMsgId).1 =
        applyOps (openState s0 userMsgId message) midOps ∧
      (chatStreamRun s0 mode message raw llmTokens midOps userMsgId
          asstMsgId).2 = "" := by
    intro h
    simp only [chatStreamRun, finishStream, getChatVersion]
    rw [if_pos h]
    exact ⟨rfl, rfl⟩
  refine ⟨?_, hver, ?_, ?_⟩
  · intro hmsg
    by_contra hne
    have := (hver hne).1
    exact hmsg (by rw [this])
  · intro hclear
    apply hver
    rw [applyOps_version]
    have : 0 < midOps.count MidOp.clear := List.count_pos_iff.mpr hclear
    omega
  · intro heq
    simp only [chatStreamRun, finishStream, getChatVersion]
    rw [if_neg (by simpa using heq)]
    exact ⟨rfl, ⟨_, rfl⟩⟩

/-- Witness for C4: a history clear mid-stream drops the assistant turn
and empties the done frame; without interference the turn is persisted. -/
theorem stream_stale_turn_guard_witness :
    ((chatStreamRun ⟨[], 0⟩ "rag" "m" [] [] [MidOp.clear] "u" "a").1 =
        applyOps (openState ⟨[], 0⟩ "u" "m") [MidOp.clear] ∧
      (chatStreamRun ⟨[], 0⟩ "rag" "m" [] [] [MidOp.clear] "u" "a").2 = "") ∧
    ((chatStreamRun ⟨[], 0⟩ "rag" "m" [] [] [] "u" "a").2 = "a" ∧
      ∃ answer,
        (chatStreamRun ⟨[], 0⟩ "rag" "m" [] [] [] "u" "a").1.messages =
          (applyOps (openState ⟨[], 0⟩ "u" "m") []).messages ++
            [⟨"a", "assistant", answer⟩]) :=
  ⟨(stream_stale_turn_guard ⟨[], 0⟩ "rag" "m" [] [] [MidOp.clear] "u"
      "a").2.2.1 (by decide),
    (stream_stale_turn_guard ⟨[], 0⟩ "rag" "m" [] [] [] "u" "a").2.2.2
      (by decide)⟩

end LocalRag
